import Mathlib

/-!
Shallow embedding of the steam-price-tracker scripts
(`steam_checker.py`, with `api-steam.py` as a near-identical variant).

Prices are minor-currency-unit integers (`Int`), discount percents are
integers, JSON objects become Lean structures whose optional fields are
`Option` (a missing key read with `.get(key, default)` is `none`), and the
on-disk history dict becomes an association list from app id to record.
-/

namespace SteamTracker

/-- The `price_overview` block of a Steam appdetails payload, as read by
`check_steam_prices`: `final` and `final_formatted` are indexed directly
(raising `KeyError` when absent), `discount_percent` and `initial_formatted`
are read with `.get` and a default, hence `Option` here. -/
structure PriceInfo where
  final : Int
  final_formatted : String
  discount_percent : Option Int
  initial_formatted : Option String
  deriving Repr, DecidableEq

/-- The part of the per-app `data` payload that `check_steam_prices` reads:
the `is_free` flag (read with `.get("is_free", False)`) and the optional
`price_overview` block. -/
structure AppPayload where
  is_free : Bool
  price_overview : Option PriceInfo
  deriving Repr, DecidableEq

/-- The observation built from a payload (lines 196-209 of
`steam_checker.py`): price in minor units, formatted price string,
discount percent, formatted original price. -/
structure Observation where
  current_price : Int
  price_formatted : String
  discount_percent : Int
  original_price_formatted : String
  deriving Repr, DecidableEq

/-- One record of the persisted history dict `precios_vistos.json`.
Records written by this program carry every field, but the decision code
reads `last_price`, `last_discount` and `last_notification` defensively
with `.get` and a default, so a record loaded from disk may lack them:
those fields are `Option` here, `none` meaning the key is absent. -/
structure HistoryRecord where
  last_price : Option Int
  last_discount : Option Int
  last_notification : Option String
  name : String
  last_checked : String
  deriving Repr, DecidableEq

/-- The entry stored into `all_apps_data` for a successfully priced app. -/
structure AppData where
  name : String
  current_price : Int
  price_formatted : String
  original_price_formatted : String
  discount_percent : Int
  last_checked : String
  deriving Repr, DecidableEq

/-- Lines 196-209 of `steam_checker.py`: the free flag short-circuits to the
synthetic "Gratis" observation; otherwise the `price_overview` block is
used when present; otherwise the app is skipped (`continue`), which is
`none` here. -/
def make_observation (payload : AppPayload) : Option Observation :=
  if payload.is_free then
    some { current_price := 0, price_formatted := "Gratis",
           discount_percent := 100, original_price_formatted := "Gratis" }
  else
    match payload.price_overview with
    | some info =>
        some { current_price := info.final,
               price_formatted := info.final_formatted,
               discount_percent := info.discount_percent.getD 0,
               original_price_formatted :=
                 info.initial_formatted.getD info.final_formatted }
    | none => none

/-- The comparison `current_price < history[app_id].get("last_price", inf)`
from line 232: against a missing `last_price` the default is positive
infinity, which every finite price is below. -/
def priceBelow (current_price : Int) (last_price : Option Int) : Bool :=
  match last_price with
  | some p => current_price < p
  | none => true

/-- The decision cascade of `check_steam_prices` (lines 224-243 of
`steam_checker.py`), as a function of the prior record for this app id
(`none` when `app_id not in history`). Returns the pair
`(should_notify, notification_reason)`; both start as `(False, "")` and
the first matching branch sets them. -/
def check_decision (prior : Option HistoryRecord)
    (current_price discount_percent min_discount : Int) : Bool × String :=
  match prior with
  | none =>
      if min_discount ≤ discount_percent then
        (true, "Nueva verificación con descuento")
      else (false, "")
  | some r =>
      if priceBelow current_price r.last_price then
        (true, "Precio reducido")
      else if r.last_discount.getD 0 < discount_percent then
        (true, "Descuento aumentado")
      else if min_discount ≤ discount_percent ∧ r.last_discount.getD 0 = 0 then
        (true, "Nuevo descuento")
      else (false, "")

/-- The reason tags of the specification's decision engine. -/
inductive Reason where
  | firstTime
  | priceDrop
  | discountIncrease
  | newDiscount
  deriving Repr, DecidableEq

/-- The reason string the code attaches to each of the specification's
reason tags (`""` when no rule matched). -/
def reasonString : Option Reason → String
  | none => ""
  | some .firstTime => "Nueva verificación con descuento"
  | some .priceDrop => "Precio reducido"
  | some .discountIncrease => "Descuento aumentado"
  | some .newDiscount => "Nuevo descuento"

/-- The decision rules exactly as the claim states them, over a prior state
that is either absent or a pair `(last_price, last_discount)`: evaluated in
precedence order, first match wins. This definition follows the claim's
words and is compared against `check_decision`, which follows the code. -/
def spec_decide (prior : Option (Int × Int))
    (current_price discount_percent threshold : Int) : Bool × Option Reason :=
  match prior with
  | none =>
      if threshold ≤ discount_percent then (true, some .firstTime)
      else (false, none)
  | some (last_price, last_discount) =>
      if current_price < last_price then (true, some .priceDrop)
      else if last_discount < discount_percent then
        (true, some .discountIncrease)
      else if threshold ≤ discount_percent ∧ last_discount = 0 then
        (true, some .newDiscount)
      else (false, none)

/-- The value the updated record stores in `last_notification` when no rule
matched: `history.get(app_id, \x7b\x7d).get("last_notification", "")`, i.e.
the previously stored value, or the empty string when the app had no prior
record or the prior record lacks the field. -/
def prior_last_notification : Option HistoryRecord → String
  | some r => r.last_notification.getD ""
  | none => ""

/-- Everything `check_steam_prices` produces for one app that reached the
pricing branch: the observation, the `all_apps_data` entry, the decision
pair, whether `send_discord_notification` was invoked (the two-stage gate
of line 246), whether it reported success, and the record written back
into the history dict (lines 258-265). -/
structure Processed where
  obs : Observation
  app_data : AppData
  should_notify : Bool
  notification_reason : String
  notify_attempted : Bool
  delivered : Bool
  new_record : HistoryRecord
  deriving Repr, DecidableEq

/-- Lines 191-265 of `steam_checker.py` for one app whose payload carried a
true success flag: build the observation (or `continue` = `none` when the
app has no price information), run the decision cascade, apply the final
gate `should_notify and discount_percent >= MIN_DISCOUNT` before invoking
the notifier, and build the replacement history record. `send_result`
abstracts the boolean returned by `send_discord_notification`; `now`
stands for `datetime.now().isoformat()`. -/
def process_app (prior : Option HistoryRecord) (payload : AppPayload)
    (min_discount : Int) (now : String) (app_name : String)
    (send_result : Bool) : Option Processed :=
  match make_observation payload with
  | none => none
  | some obs =>
      let dec :=
        check_decision prior obs.current_price obs.discount_percent
          min_discount
      let attempted := dec.1 && decide (min_discount ≤ obs.discount_percent)
      some
        { obs := obs
          app_data :=
            { name := app_name, current_price := obs.current_price,
              price_formatted := obs.price_formatted,
              original_price_formatted := obs.original_price_formatted,
              discount_percent := obs.discount_percent, last_checked := now }
          should_notify := dec.1
          notification_reason := dec.2
          notify_attempted := attempted
          delivered := attempted && send_result
          new_record :=
            { last_price := some obs.current_price
              last_discount := some obs.discount_percent
              last_notification :=
                some (if dec.1 then now else prior_last_notification prior)
              name := app_name
              last_checked := now } }

/-- What the remote fetch of one app turned into, seen from the loop body:
a parsed payload with a true success flag (together with the abstracted
result of a notifier call, should one be made), a response whose success
flag is false or misses the app id (the logged `else` branch), or an
exception caught by one of the three per-app handlers (connection error,
`KeyError`, unexpected). -/
inductive FetchResult where
  | fetched (payload : AppPayload) (send_result : Bool)
  | badData
  | raised
  deriving Repr, DecidableEq

/-- One configured app together with what its fetch turned into. -/
structure AppInput where
  app_id : String
  app_name : String
  fetch : FetchResult
  deriving Repr, DecidableEq

/-- Python dict lookup on the embedding of a JSON object as an association
list. -/
def dictLookup (l : List (String × α)) (k : String) : Option α :=
  match l with
  | [] => none
  | (q, w) :: rest => if q = k then some w else dictLookup rest k

/-- Python dict assignment `d[k] = v`: replace the binding in place when
the key exists, append it otherwise. -/
def dictInsert (l : List (String × α)) (k : String) (v : α) :
    List (String × α) :=
  match l with
  | [] => [(k, v)]
  | (q, w) :: rest =>
      if q = k then (k, v) :: rest else (q, w) :: dictInsert rest k v

/-- The mutable state of the `check_steam_prices` loop: the history dict,
`all_apps_data`, `apps_checked` and `notifications_sent`. -/
structure RunState where
  history : List (String × HistoryRecord)
  all_apps_data : List (String × AppData)
  apps_checked : Nat
  notifications_sent : Nat
  deriving Repr, DecidableEq

/-- One iteration of the per-app loop. A caught exception and a bad
payload leave the state untouched (the handlers log and fall through to
the next app); a successful payload increments `apps_checked` and, unless
the app was skipped for missing price data, stores the app data, writes
the history record, and counts a delivered notification. -/
def step (min_discount : Int) (now : String) (st : RunState)
    (a : AppInput) : RunState :=
  match a.fetch with
  | .badData => st
  | .raised => st
  | .fetched payload send_result =>
      match process_app (dictLookup st.history a.app_id) payload
          min_discount now a.app_name send_result with
      | none => { st with apps_checked := st.apps_checked + 1 }
      | some p =>
          { history := dictInsert st.history a.app_id p.new_record
            all_apps_data := dictInsert st.all_apps_data a.app_id p.app_data
            apps_checked := st.apps_checked + 1
            notifications_sent :=
              st.notifications_sent + (if p.delivered then 1 else 0) }

/-- The observable states of the persisted `precios_vistos.json` file as
seen by `load_history`: absent; present, UTF-8-decodable and valid JSON
with the given contents; present and decodable but not valid JSON
(`json.load` raises `json.JSONDecodeError`); present but not valid UTF-8
(`json.load` raises `UnicodeDecodeError`, a `ValueError`, while reading);
or failing to read at the OS level (`IOError`). -/
inductive FileState (α : Type) where
  | absent
  | present (contents : α)
  | invalidJson
  | invalidUtf8
  | readError
  deriving Repr, DecidableEq

/-- An exception that escapes `load_history`: its `except` clause names
only `(json.JSONDecodeError, IOError)`, and `UnicodeDecodeError` is a
`ValueError`, subclass of neither, so it propagates to the caller. -/
inductive PyExc where
  | unicodeDecodeError
  deriving Repr, DecidableEq

/-- Embeds `load_history` (lines 63-72 of `steam_checker.py`): the parsed
mapping when the file exists and parses, the empty dict when it does not
exist, and — via the `except (json.JSONDecodeError, IOError)` clause,
after logging — the empty dict when the JSON is invalid or the read fails
at the OS level. A present file whose bytes are not valid UTF-8 makes
`json.load` raise `UnicodeDecodeError`, which the clause does not catch:
that path is the `Except.error` result. -/
def load_history (file : FileState (List (String × HistoryRecord))) :
    Except PyExc (List (String × HistoryRecord)) :=
  match file with
  | .present contents => .ok contents
  | .absent => .ok []
  | .invalidJson => .ok []
  | .readError => .ok []
  | .invalidUtf8 => .error .unicodeDecodeError

/-- The result of a full pass: the final loop state and the list of
history snapshots passed to `save_history`, in order. The code calls
`save_history(history)` exactly once, after the loop. -/
structure RunResult where
  final : RunState
  saves : List (List (String × HistoryRecord))
  deriving Repr, DecidableEq

/-- Embeds `check_steam_prices` (lines 159-283): load the history file,
fold the per-app step over the configured apps, then persist the
accumulated history once. An exception escaping `load_history` (the
invalid-UTF-8 path) propagates out of `check_steam_prices` before any
product is processed; `main` catches it, logs, and returns exit code 1. -/
def check_steam_prices (file : FileState (List (String × HistoryRecord)))
    (apps : List AppInput) (min_discount : Int) (now : String) :
    Except PyExc RunResult :=
  match load_history file with
  | .error e => .error e
  | .ok history =>
      let final := apps.foldl (step min_discount now)
        { history := history, all_apps_data := [],
          apps_checked := 0, notifications_sent := 0 }
      .ok { final := final, saves := [final.history] }

/-- The outcome of the `requests.post` call to the webhook: a response
with a status code, or a `requests.exceptions.RequestException` raised by
the transport. -/
inductive PostResult where
  | response (status_code : Int)
  | requestException
  deriving Repr, DecidableEq

/-- The guard `if not webhook_url` of `send_discord_notification`: true
when `DISCORD_WEBHOOK_URL` is unset (`None`) or set to the empty string,
both falsy in Python. -/
def webhook_missing : Option String → Bool
  | none => true
  | some u => u = ""

/-- Embeds `send_discord_notification` (lines 142-157 of `steam_checker.py`),
after the embed is built: returns `False` when the webhook URL is
missing, `True` exactly when the POST yields status 200 or 204, `False`
on any other status, and `False` when the transport raises (the
`RequestException` handler). Totality embeds "never raises". -/
def send_discord_notification (webhook_url : Option String)
    (post : PostResult) : Bool :=
  if webhook_missing webhook_url then false
  else
    match post with
    | .response status_code => status_code = 200 || status_code = 204
    | .requestException => false

/-- Concrete payload of an app sold at 500 minor units with no active
discount, whose formatted original price is 1000: used to exercise the
price-drop rule below the notification threshold. -/
def droppedPayload : AppPayload :=
  { is_free := false,
    price_overview :=
      some { final := 500, final_formatted := "$ 500",
             discount_percent := some 0,
             initial_formatted := some ("$ 1.000") } }

/-- Concrete prior record: the app was last seen at 1000 minor units with
no discount, and a notification had been recorded at an earlier time. -/
def seenPrior : HistoryRecord :=
  { last_price := some 1000, last_discount := some 0,
    last_notification := some ("2024-01-01T00:00:00"),
    name := "Destiny 2 (Base)", last_checked := "2024-01-01T00:00:00" }

/-- The value `process_app` computes for `droppedPayload` against
`seenPrior` with threshold 10 at time 2024-06-01: the price-drop rule
matches, the threshold gate fails, and the record still stamps the new
time into `last_notification`. -/
def droppedProcessed : Processed :=
  { obs := { current_price := 500, price_formatted := "$ 500",
             discount_percent := 0, original_price_formatted := "$ 1.000" }
    app_data := { name := "Destiny 2 (Base)", current_price := 500,
                  price_formatted := "$ 500",
                  original_price_formatted := "$ 1.000",
                  discount_percent := 0,
                  last_checked := "2024-06-01T00:00:00" }
    should_notify := true
    notification_reason := "Precio reducido"
    notify_attempted := false
    delivered := false
    new_record := { last_price := some 500, last_discount := some 0,
                    last_notification := some ("2024-06-01T00:00:00"),
                    name := "Destiny 2 (Base)",
                    last_checked := "2024-06-01T00:00:00" } }

/-- Concrete payload of an app sold at 1000 minor units with no discount:
an observation identical to what `flatRecord` remembers. -/
def flatPayload : AppPayload :=
  { is_free := false,
    price_overview :=
      some { final := 1000, final_formatted := "$ 1.000",
             discount_percent := some 0, initial_formatted := none } }

/-- The history record `process_app` writes for `flatPayload` at time T0
with threshold 0 and no prior record. -/
def flatRecord : HistoryRecord :=
  { last_price := some 1000, last_discount := some 0,
    last_notification := some ("T0"), name := "G", last_checked := "T0" }

/-- The value `process_app` computes for a free app with no prior record,
threshold 10, at time T1: the first-time rule matches, the gate passes,
and the notifier delivers. -/
def freeProcessed : Processed :=
  { obs := { current_price := 0, price_formatted := "Gratis",
             discount_percent := 100, original_price_formatted := "Gratis" }
    app_data := { name := "G", current_price := 0,
                  price_formatted := "Gratis",
                  original_price_formatted := "Gratis",
                  discount_percent := 100, last_checked := "T1" }
    should_notify := true
    notification_reason := "Nueva verificación con descuento"
    notify_attempted := true
    delivered := true
    new_record := { last_price := some 0, last_discount := some 100,
                    last_notification := some ("T1"), name := "G",
                    last_checked := "T1" } }

/-- The value `process_app` computes when the same free observation is
checked again at time T2 against the record `freeProcessed` wrote: no
rule matches any more. -/
def freeProcessed2 : Processed :=
  { obs := { current_price := 0, price_formatted := "Gratis",
             discount_percent := 100, original_price_formatted := "Gratis" }
    app_data := { name := "G", current_price := 0,
                  price_formatted := "Gratis",
                  original_price_formatted := "Gratis",
                  discount_percent := 100, last_checked := "T2" }
    should_notify := false
    notification_reason := ""
    notify_attempted := false
    delivered := false
    new_record := { last_price := some 0, last_discount := some 100,
                    last_notification := some ("T1"), name := "G",
                    last_checked := "T2" } }

/-- The value `process_app` computes for `droppedPayload` with no prior
record and threshold 10 at time T0: below-threshold first check, so no
rule matches, yet a full history record is produced. -/
def firstDroppedProcessed : Processed :=
  { obs := { current_price := 500, price_formatted := "$ 500",
             discount_percent := 0, original_price_formatted := "$ 1.000" }
    app_data := { name := "G", current_price := 500,
                  price_formatted := "$ 500",
                  original_price_formatted := "$ 1.000",
                  discount_percent := 0, last_checked := "T0" }
    should_notify := false
    notification_reason := ""
    notify_attempted := false
    delivered := false
    new_record := { last_price := some 500, last_discount := some 0,
                    last_notification := some (""), name := "G",
                    last_checked := "T0" } }

/-- An empty loop state, as at the start of a run over an absent file. -/
def emptyRun : RunState :=
  { history := [], all_apps_data := [], apps_checked := 0,
    notifications_sent := 0 }

/-- A configured app whose fetch produced `droppedPayload` and whose
notifier call, were one made, would succeed. -/
def inputDropped : AppInput :=
  { app_id := "1090150", app_name := "G",
    fetch := .fetched droppedPayload true }

/-- The id of `inputDropped`. -/
def inputDroppedId : String := "1090150"

/-- A configured app whose fetch raised an exception caught by the
per-app handlers. -/
def inputRaised : AppInput :=
  { app_id := "1085660", app_name := "H", fetch := .raised }

/-- Claim C1: for every observation, every prior state — absent, or a record
carrying both `last_price` and `last_discount` — and every integer
threshold, the code's `should_notify` and `notification_reason` are exactly
the result of the claim's five-rule cascade (first-time, price-drop,
discount-increase, new-discount, otherwise-silent), with reasons rendered
by `reasonString`. -/
theorem check_decision_eq_spec_decide (prior : Option (Int × Int))
    (current_price discount_percent threshold : Int)
    (ln : Option String) (nm lc : String) :
    check_decision
        (prior.map fun q =>
          { last_price := some q.1, last_discount := some q.2,
            last_notification := ln, name := nm, last_checked := lc })
        current_price discount_percent threshold
      = ((spec_decide prior current_price discount_percent threshold).1,
         reasonString
           (spec_decide prior current_price discount_percent threshold).2) := by
  cases prior with
  | none =>
      by_cases h : threshold ≤ discount_percent <;>
        simp [check_decision, spec_decide, reasonString, h]
  | some q =>
      obtain ⟨lp, ld⟩ := q
      simp only [Option.map, check_decision, spec_decide, priceBelow,
        Option.getD]
      by_cases h1 : current_price < lp
      · simp [h1, reasonString]
      · by_cases h2 : ld < discount_percent
        · simp [h1, h2, reasonString]
        · by_cases h3 : threshold ≤ discount_percent ∧ ld = 0
          · obtain ⟨h3a, h3b⟩ := h3
            subst h3b
            simp [h1, h2, h3a, reasonString]
          · simp [h1, h2, h3, reasonString]

/-- Dict lookup after dict assignment at the same key finds the assigned
value. -/
theorem dictLookup_dictInsert (l : List (String × α)) (k : String) (v : α) :
    dictLookup (dictInsert l k v) k = some v := by
  induction l with
  | nil => simp [dictInsert, dictLookup]
  | cons q rest ih =>
      obtain ⟨q1, w⟩ := q
      by_cases h : q1 = k
      · simp [dictInsert, dictLookup, h]
      · simp [dictInsert, dictLookup, h, ih]

/-- Claim C2: for every processed product, `send_discord_notification` is
invoked exactly when a decision rule matched and the discount meets the
threshold; in particular a price-drop match whose discount is below the
threshold never leads to a delivery attempt. -/
theorem notifier_invoked_iff_gate (prior : Option HistoryRecord)
    (payload : AppPayload) (min_discount : Int) (now app_name : String)
    (send_result : Bool) (p : Processed)
    (h : process_app prior payload min_discount now app_name send_result
          = some p) :
    (p.notify_attempted = true ↔
      p.should_notify = true ∧ min_discount ≤ p.obs.discount_percent)
    ∧ (p.notification_reason = "Precio reducido" →
        p.obs.discount_percent < min_discount →
        p.notify_attempted = false) := by
  cases hm : make_observation payload with
  | none => simp [process_app, hm] at h
  | some obs =>
      simp only [process_app, hm, Option.some.injEq] at h
      subst h
      constructor
      · simp [Bool.and_eq_true, decide_eq_true_eq]
      · intro _ hlt
        simp [Bool.and_eq_false_iff, decide_eq_false_iff_not, not_le, hlt]

/-- Witness for C2 at a concrete input: a free app checked for the first
time with threshold 10. -/
theorem notifier_invoked_iff_gate_witness :
    (freeProcessed.notify_attempted = true ↔
      freeProcessed.should_notify = true ∧
        (10 : Int) ≤ freeProcessed.obs.discount_percent)
    ∧ (freeProcessed.notification_reason = "Precio reducido" →
        freeProcessed.obs.discount_percent < 10 →
        freeProcessed.notify_attempted = false) :=
  notifier_invoked_iff_gate none { is_free := true, price_overview := none }
    10 "T1" "G" true freeProcessed (by decide)

/-- Claim C9: a payload carrying a true free flag maps to the synthetic
observation with price 0, discount 100 and the free display string,
whatever its `price_overview` block contains — the block is never
consulted. -/
theorem free_flag_synthetic_observation (po : Option PriceInfo) :
    make_observation { is_free := true, price_overview := po }
      = some { current_price := 0, price_formatted := "Gratis",
               discount_percent := 100,
               original_price_formatted := "Gratis" } := rfl

/-- Claim C10: a prior record that lacks `last_price` makes the price-drop
comparison succeed against positive infinity for every observed price, so
the price-drop rule fires unconditionally; a record that lacks
`last_discount` behaves exactly as one recording a zero last discount. -/
theorem missing_history_fields (r : HistoryRecord)
    (current_price discount_percent min_discount : Int) :
    (r.last_price = none →
      check_decision (some r) current_price discount_percent min_discount
        = (true, "Precio reducido"))
    ∧ (r.last_discount = none →
      check_decision (some r) current_price discount_percent min_discount
        = check_decision (some { r with last_discount := some 0 })
            current_price discount_percent min_discount) := by
  constructor
  · intro hp
    simp [check_decision, priceBelow, hp]
  · intro hd
    simp [check_decision, hd]

/-- Witness for C10: a record missing `last_price` fires the price-drop
rule at an arbitrary observed price, and a record missing `last_discount`
decides like one with a zero last discount. -/
theorem missing_history_fields_witness :
    check_decision
        (some { last_price := none, last_discount := some 0,
                last_notification := none, name := "G",
                last_checked := "" }) 700 5 10
      = (true, "Precio reducido")
    ∧ check_decision
        (some { last_price := some 700, last_discount := none,
                last_notification := none, name := "G",
                last_checked := "" }) 700 5 10
      = check_decision
          (some { last_price := some 700, last_discount := some 0,
                  last_notification := none, name := "G",
                  last_checked := "" }) 700 5 10 :=
  ⟨(missing_history_fields _ 700 5 10).1 rfl,
   (missing_history_fields _ 700 5 10).2 rfl⟩

/-- Claim C6 is a code bug: the claim (and the spec's "corruption is
non-fatal, never a crash") holds on the present-and-parseable, absent,
invalid-JSON and read-error states, but a present history file whose
bytes are not valid UTF-8 makes `json.load` raise `UnicodeDecodeError` —
a `ValueError`, caught by neither `json.JSONDecodeError` nor `IOError` —
so `load_history` raises on that unparsable file instead of returning
the empty mapping. -/
theorem load_history_raises_on_invalid_utf8 :
    load_history (FileState.invalidUtf8) = .error .unicodeDecodeError
    ∧ (∀ m, load_history (.present m) = .ok m)
    ∧ load_history (FileState.absent) = .ok []
    ∧ load_history (FileState.invalidJson) = .ok []
    ∧ load_history (FileState.readError) = .ok [] :=
  ⟨rfl, fun _ => rfl, rfl, rfl, rfl⟩

/-- Claim C7: the notifier always returns a boolean (it is total — every
raised transport error is caught), and it returns true exactly when the
webhook URL is configured and the POST yields status 200 or 204; a
missing URL, a transport exception or any other status yields false. -/
theorem send_notification_boolean (webhook_url : Option String)
    (post : PostResult) :
    send_discord_notification webhook_url post = true ↔
      (webhook_missing webhook_url = false ∧
        (post = .response 200 ∨ post = .response 204)) := by
  by_cases hw : webhook_missing webhook_url
  · simp [send_discord_notification, hw]
  · cases post with
    | response status_code =>
        simp [send_discord_notification, hw, Bool.or_eq_true,
          decide_eq_true_eq]
    | requestException => simp [send_discord_notification, hw]

/-- Counterexample to C3 as stated: the price of a previously seen app
drops from 1000 to 500 with discount 0 and threshold 10, so the notifier
is never invoked — yet the stored record replaces the previously recorded
`last_notification` (2024-01-01) with the current time (2024-06-01). -/
theorem last_notification_counterexample :
    (process_app (some seenPrior) droppedPayload 10 ("2024-06-01T00:00:00")
        ("Destiny 2 (Base)") true).map
        (fun p => (p.notify_attempted, p.new_record.last_notification))
      = some (false, some ("2024-06-01T00:00:00"))
    ∧ seenPrior.last_notification = some ("2024-01-01T00:00:00")
    ∧ ("2024-06-01T00:00:00" : String) ≠ "2024-01-01T00:00:00" := by
  refine ⟨rfl, rfl, ?_⟩
  decide

/-- Claim C3 as amended: the stored `last_notification` is stamped with
the current time whenever a decision rule matched (`should_notify`), even
when the threshold gate blocked the actual delivery attempt; only when no
rule matched is the previously stored value (empty when absent)
preserved. -/
theorem last_notification_follows_rule_match (prior : Option HistoryRecord)
    (payload : AppPayload) (min_discount : Int) (now app_name : String)
    (send_result : Bool) (p : Processed)
    (h : process_app prior payload min_discount now app_name send_result
          = some p) :
    p.new_record.last_notification
      = some (if p.should_notify = true then now
              else prior_last_notification prior) := by
  cases hm : make_observation payload with
  | none => simp [process_app, hm] at h
  | some obs =>
      simp only [process_app, hm, Option.some.injEq] at h
      subst h
      rfl

/-- Witness for the amended C3 at a concrete input: the price-drop match
below threshold stamps the current time. -/
theorem last_notification_follows_rule_match_witness :
    droppedProcessed.new_record.last_notification
      = some (if droppedProcessed.should_notify = true
              then "2024-06-01T00:00:00"
              else prior_last_notification (some seenPrior)) :=
  last_notification_follows_rule_match (some seenPrior) droppedPayload 10
    ("2024-06-01T00:00:00") ("Destiny 2 (Base)") true droppedProcessed
    (by decide)

/-- Counterexample to C4 as stated: with threshold 0 (an integer the claim
quantifies over) and a zero-discount app, the first run writes
`flatRecord`; a second run with the identical observation against that
updated record matches the new-discount rule again (discount 0 meets
threshold 0 and the recorded last discount is 0), so `should_notify` is
true and a notification is attempted a second time. -/
theorem idempotence_counterexample :
    (process_app none flatPayload 0 ("T0") ("G") true).map
        (fun p => p.new_record)
      = some flatRecord
    ∧ (process_app (some flatRecord) flatPayload 0 ("T1") ("G") true).map
        (fun p => (p.should_notify, p.notify_attempted))
      = some (true, true) := ⟨rfl, rfl⟩

/-- Claim C4 as amended: for every positive threshold, running the
decision engine again with the identical observation against the history
record already written by the first run matches no rule: `should_notify`
is false, no notification is attempted, and the reason stays empty. (For
thresholds at most 0 the new-discount rule re-fires on zero-discount
apps, as the counterexample shows.) -/
theorem repeat_observation_no_notification (prior : Option HistoryRecord)
    (payload : AppPayload) (min_discount : Int) (now now2 app_name : String)
    (sr sr2 : Bool) (p p2 : Processed)
    (hpos : 1 ≤ min_discount)
    (h1 : process_app prior payload min_discount now app_name sr = some p)
    (h2 : process_app (some p.new_record) payload min_discount now2
            app_name sr2 = some p2) :
    p2.should_notify = false ∧ p2.notify_attempted = false ∧
      p2.notification_reason = "" := by
  cases hm : make_observation payload with
  | none => simp [process_app, hm] at h1
  | some obs =>
      simp only [process_app, hm, Option.some.injEq] at h1 h2
      subst h1
      subst h2
      have hd : ¬ (min_discount ≤ obs.discount_percent ∧
          obs.discount_percent = 0) := by
        rintro ⟨ha, hb⟩
        omega
      simp [check_decision, priceBelow, hd]

/-- Witness for the amended C4 at a concrete input: a free app first
checked at T1 with threshold 10, then re-checked identically at T2. -/
theorem repeat_observation_no_notification_witness :
    freeProcessed2.should_notify = false ∧
      freeProcessed2.notify_attempted = false ∧
      freeProcessed2.notification_reason = "" :=
  repeat_observation_no_notification none
    { is_free := true, price_overview := none } 10 "T1" "T2" "G" true true
    freeProcessed freeProcessed2 (by decide) (by decide) (by decide)

/-- Claim C5: for every successfully fetched and priced product, the loop
writes a history record under its app id carrying the observed price and
discount, whatever the decision was; and when there is no prior record
and the discount is below the threshold, no notification is attempted yet
the record is still created. -/
theorem history_record_written (min_discount : Int) (now : String)
    (st : RunState) (a : AppInput) (payload : AppPayload) (sr : Bool)
    (p : Processed)
    (hf : a.fetch = .fetched payload sr)
    (hp : process_app (dictLookup st.history a.app_id) payload min_discount
            now a.app_name sr = some p) :
    dictLookup (step min_discount now st a).history a.app_id
        = some p.new_record
    ∧ p.new_record.last_price = some p.obs.current_price
    ∧ p.new_record.last_discount = some p.obs.discount_percent
    ∧ (dictLookup st.history a.app_id = none →
        p.obs.discount_percent < min_discount →
        p.notify_attempted = false) := by
  cases hm : make_observation payload with
  | none => simp [process_app, hm] at hp
  | some obs =>
      refine ⟨?_, ?_, ?_, ?_⟩
      · simp [step, hf, hp, dictLookup_dictInsert]
      · simp only [process_app, hm, Option.some.injEq] at hp
        subst hp
        rfl
      · simp only [process_app, hm, Option.some.injEq] at hp
        subst hp
        rfl
      · intro hnone hlt
        simp only [process_app, hm, Option.some.injEq, hnone] at hp
        subst hp
        simp [check_decision, not_le.mpr hlt]

/-- Witness for C5 at a concrete input: a first-time app priced at 500
with discount 0 against threshold 10 gets a record but no notification
attempt. -/
theorem history_record_written_witness :
    dictLookup (step 10 ("T0") emptyRun inputDropped).history
        inputDropped.app_id
      = some firstDroppedProcessed.new_record
    ∧ firstDroppedProcessed.new_record.last_price
        = some firstDroppedProcessed.obs.current_price
    ∧ firstDroppedProcessed.new_record.last_discount
        = some firstDroppedProcessed.obs.discount_percent
    ∧ (dictLookup emptyRun.history inputDropped.app_id = none →
        firstDroppedProcessed.obs.discount_percent < 10 →
        firstDroppedProcessed.notify_attempted = false) :=
  history_record_written 10 "T0" emptyRun inputDropped droppedPayload true
    firstDroppedProcessed (by decide) (by decide)

/-- Claim C8: a product whose processing raises is absorbed at the
per-product boundary — the whole run over the product list with the
failing product removed produces the identical result, so all other
products are still processed and contribute — and whenever the pass runs,
the accumulated history is persisted exactly once, at its end. -/
theorem per_product_failure_isolated
    (file : FileState (List (String × HistoryRecord)))
    (min_discount : Int) (now : String) (pre post : List AppInput)
    (a : AppInput) (hra : a.fetch = .raised) :
    check_steam_prices file (pre ++ a :: post) min_discount now
      = check_steam_prices file (pre ++ post) min_discount now
    ∧ (check_steam_prices file (pre ++ a :: post) min_discount now).map
        (fun r => r.saves)
      = (check_steam_prices file (pre ++ a :: post) min_discount now).map
        (fun r => [r.final.history]) := by
  cases hload : load_history file with
  | error e => constructor <;> simp [check_steam_prices, hload, Except.map]
  | ok history =>
      have hfold : ∀ init : RunState,
          List.foldl (step min_discount now) init (pre ++ a :: post)
            = List.foldl (step min_discount now) init (pre ++ post) := by
        intro init
        simp only [List.foldl_append, List.foldl_cons]
        congr 1
        simp [step, hra]
      constructor
      · simp only [check_steam_prices, hload]
        rw [hfold]
      · simp [check_steam_prices, hload, Except.map]

/-- Witness for C8 at a concrete input: one good product, one whose fetch
raised, one more good product, over an absent history file. -/
theorem per_product_failure_isolated_witness :
    check_steam_prices (.absent) [inputDropped, inputRaised, inputDropped]
        10 ("T0")
      = check_steam_prices (.absent) [inputDropped, inputDropped] 10 ("T0")
    ∧ (check_steam_prices (.absent) [inputDropped, inputRaised,
          inputDropped] 10 ("T0")).map (fun r => r.saves)
      = (check_steam_prices (.absent) [inputDropped, inputRaised,
            inputDropped] 10 ("T0")).map (fun r => [r.final.history]) :=
  per_product_failure_isolated (.absent) 10 "T0" [inputDropped]
    [inputDropped] inputRaised (by decide)

end SteamTracker
